import Mathlib

/-!
Shallow embedding of the event-authorization engine in `synapse/api/auth.py`
(the `Auth` class), together with theorems checking the natural-language
specification against it.

Modelling conventions:
* Python dicts with string keys and integer values become association lists
  (`Dict`), looked up by first match; power-level values are modelled as
  integers directly (the source's `int(v)` coercions therefore never fail).
* Python 2 comparisons between `None` and integers are total: `None` is
  smaller than every integer.  `pyLtO` captures this order on `Option Int`.
* Python truthiness (`if not level`, `if kick_level`) is expanded explicitly:
  an `Option Int` is falsy iff it is `none` or `some 0`.
* Raised exceptions become `Except` errors (`AuthFailure`); uncaught runtime
  errors of the source (e.g. `AttributeError` from calling `.keys()` on
  `None`) are modelled by the distinct `AuthFailure.crash` constructor, which
  no handler catches.
-/

set_option maxRecDepth 8192

namespace Synapse

/-- A Python dict from strings to integer levels, as an association list. -/
abbrev Dict := List (String × Int)

/-- `d.get(k)`: first binding of `k`, if any. -/
def dget (d : Dict) (k : String) : Option Int :=
  match d.find? (fun p => p.1 == k) with
  | some p => some p.2
  | none => none

/-- `d.keys()`. -/
def dkeys (d : Dict) : List String := d.map (fun p => p.1)

/-- Python 2 `<` on possibly-`None` integers: `None` is below every integer. -/
def pyLtO : Option Int → Option Int → Bool
  | none, none => false
  | none, some _ => true
  | some _, none => false
  | some a, some b => decide (a < b)

/-- Python 2 `a > b` on possibly-`None` integers. -/
def pyGtO (a b : Option Int) : Bool := pyLtO b a

/-- Event-type tag of member events (`RoomMemberEvent.TYPE`). Modelled from
the spec: the events module defining the type-tag constants is not part of
the given source; §4.1 only needs the five tags to be distinct strings. -/
def RoomMemberEventType : String := "m.room.member"

/-- Event-type tag of power-level events (`RoomPowerLevelsEvent.TYPE`). -/
def RoomPowerLevelsEventType : String := "m.room.power_levels"

/-- Event-type tag of join-rules events (`RoomJoinRulesEvent.TYPE`). -/
def RoomJoinRulesEventType : String := "m.room.join_rules"

/-- Event-type tag of redaction events (`RoomRedactionEvent.TYPE`). -/
def RoomRedactionEventType : String := "m.room.redaction"

/-- Event-type tag of create events (`RoomCreateEvent.TYPE`). -/
def RoomCreateEventType : String := "m.room.create"

/-- The membership/join-rule string constants.  Modelled from the spec (§3
enums); the source itself compares `caller.membership == "join"` against the
lowercase literal, grounding the representation. -/
def MembershipInvite : String := "invite"

/-- Membership constant `join`. -/
def MembershipJoin : String := "join"

/-- Membership constant `leave`. -/
def MembershipLeave : String := "leave"

/-- Membership constant `ban`. -/
def MembershipBan : String := "ban"

/-- Join-rule constant `public`. -/
def JoinRulePublic : String := "public"

/-- Join-rule constant `invite` (also the default when absent). -/
def JoinRuleInvite : String := "invite"

/-- The `content` dict of an event.  Each field models one key that the
engine reads; `none` means the key is absent from the dict. -/
structure Content where
  membership : Option String := none
  join_rule : Option String := none
  users : Option Dict := none
  events : Option Dict := none
  users_default : Option Int := none
  events_default : Option Int := none
  state_default : Option Int := none
  ban : Option Int := none
  kick : Option Int := none
  redact : Option Int := none
deriving DecidableEq

/-- A resolved prior state event, as stored in `old_state_events`.  Member
events carry the `membership` attribute (per §3 every MembershipRecord has
one); all state events carry `content`. -/
structure StateEvent where
  membership : Option String := none
  content : Content := {}
deriving DecidableEq

/-- The prior-state snapshot: mapping from `(event_type, state_key)` pairs
to resolved state events. -/
abbrev StateMap := List ((String × String) × StateEvent)

/-- `old_state_events.get(key)`. -/
def sget (sm : StateMap) (k : String × String) : Option StateEvent :=
  match sm.find? (fun p => p.1.1 == k.1 && p.1.2 == k.2) with
  | some p => some p.2
  | none => none

/-- A proposed event under evaluation.  `room_id`, `state_key`, `outlier` and
`old_state_events` are `Option`s because the source tests them with
`hasattr` / `is None`. -/
structure Event where
  event_id : String := ""
  room_id : Option String := none
  type : String := ""
  state_key : Option String := none
  user_id : String := ""
  content : Content := {}
  outlier : Option Bool := none
  old_state_events : Option StateMap := none
deriving DecidableEq

/-- A raised failure.  `authError`/`synapseError` are the typed failures of
the source (`AuthError(code, msg)` / `SynapseError(400, msg)`); `crash`
models an uncaught runtime error (`AttributeError`/`KeyError`) that no
handler in this module catches. -/
inductive AuthFailure where
  | authError (code : Nat) (msg : String)
  | synapseError (code : Nat) (msg : String)
  | crash (msg : String)
deriving DecidableEq

/-- Typed failures carry an HTTP-style status and message (spec §7); crashes
do not. -/
def isTypedFailure : AuthFailure → Bool
  | .authError _ _ => true
  | .synapseError _ _ => true
  | .crash _ => false

/-- `Auth._get_power_level_from_event_state` (minus the event/self plumbing:
it only reads the prior-state snapshot and a user id).  `if not level:`
treats both a missing entry and an explicit `0` as falsy. -/
def get_power_level_from_event_state (sm : StateMap) (user_id : String) : Option Int :=
  match sget sm (RoomPowerLevelsEventType, "") with
  | none => none
  | some power_level_event =>
    match dget (power_level_event.content.users.getD []) user_id with
    | some v =>
      if v ≠ 0 then some v
      else some (power_level_event.content.users_default.getD 0)
    | none => some (power_level_event.content.users_default.getD 0)

/-- `Auth._get_ops_level_from_event_state`: the `(ban, kick, redact)`
triple, each defaulting to `50` when the power-levels event exists, and all
`None` when it does not. -/
def get_ops_level_from_event_state (sm : StateMap) : Option Int × Option Int × Option Int :=
  match sget sm (RoomPowerLevelsEventType, "") with
  | none => (none, none, none)
  | some power_level_event =>
    (some (power_level_event.content.ban.getD 50),
     some (power_level_event.content.kick.getD 50),
     some (power_level_event.content.redact.getD 50))

/-- The `if kick_level: int(kick_level) else: 50` idiom of the membership
gate: a falsy (missing or zero) threshold becomes `50`. -/
def opsDefault : Option Int → Int
  | some v => if v = 0 then 50 else v
  | none => 50

/-- Python truthiness of `caller and caller.membership == "join"`. -/
def inRoom (o : Option StateEvent) : Bool :=
  match o with
  | some c => c.membership == some "join"
  | none => false

/-- The join rule derived from prior state, defaulting to `invite` both when
the join-rules event is absent and when its content lacks the key. -/
def joinRuleOf (sm : StateMap) : String :=
  match sget sm (RoomJoinRulesEventType, "") with
  | some join_rule_event => join_rule_event.content.join_rule.getD JoinRuleInvite
  | none => JoinRuleInvite

/-- The branch structure of `is_membership_change_allowed` after all inputs
are resolved: requested membership dispatch over invite/join/leave/ban with
the `500` fallthrough. -/
def membershipCore (caller_in_room target_in_room : Bool) (user_id target_user_id : String)
    (membership join_rule : String) (user_level : Option Int) (ban_level kick_level : Option Int) :
    Except AuthFailure Bool :=
  if membership = MembershipInvite then
    if !caller_in_room then .error (.authError 403 "You are not in the room.")
    else if target_in_room then .error (.authError 403 "Target is already in the room.")
    else .ok true
  else if membership = MembershipJoin then
    if user_id ≠ target_user_id then .error (.authError 403 "Cannot force another user to join.")
    else if join_rule = JoinRulePublic then .ok true
    else if join_rule = JoinRuleInvite then
      if !caller_in_room then .error (.authError 403 "You are not invited to this room.")
      else .ok true
    else .error (.authError 403 "You are not allowed to join this room")
  else if membership = MembershipLeave then
    if !caller_in_room then .error (.authError 403 "You are not in the room.")
    else if target_user_id ≠ user_id then
      if pyLtO user_level (some (opsDefault kick_level)) then
        .error (.authError 403 "You cannot kick that user.")
      else .ok true
    else .ok true
  else if membership = MembershipBan then
    if pyLtO user_level (some (opsDefault ban_level)) then
      .error (.authError 403 "You do not have permission to ban")
    else .ok true
  else .error (.authError 500 "Unknown membership")

/-- `Auth.is_membership_change_allowed`.  Reading the absent `state_key`
attribute or the absent `content["membership"]` key is an uncaught runtime
error in the source, modelled as `crash`. -/
def is_membership_change_allowed (sm : StateMap) (e : Event) : Except AuthFailure Bool :=
  match e.state_key with
  | none => .error (.crash "AttributeError state_key")
  | some target_user_id =>
    let caller_in_room := inRoom (sget sm (RoomMemberEventType, e.user_id))
    let target_in_room := inRoom (sget sm (RoomMemberEventType, target_user_id))
    match e.content.membership with
    | none => .error (.crash "KeyError membership")
    | some membership =>
      let join_rule := joinRuleOf sm
      let user_level := get_power_level_from_event_state sm e.user_id
      let ops := get_ops_level_from_event_state sm
      membershipCore caller_in_room target_in_room e.user_id target_user_id
        membership join_rule user_level ops.1 ops.2.1

/-- `Auth._can_send_event`.  `send_level` and `user_level` go through the
source's two truthiness coercions before the final integer comparison. -/
def can_send_event (sm : StateMap) (e : Event) : Except AuthFailure Unit :=
  let send_level_raw : Option Int :=
    match sget sm (RoomPowerLevelsEventType, "") with
    | none => none
    | some send_level_event =>
      let fallback : Int :=
        if e.state_key.isSome then send_level_event.content.state_default.getD 50
        else send_level_event.content.events_default.getD 0
      match dget (send_level_event.content.events.getD []) e.type with
      | some v => if v ≠ 0 then some v else some fallback
      | none => some fallback
  let send_level : Int :=
    match send_level_raw with
    | some v => if v ≠ 0 then v else 0
    | none => 0
  let user_level : Int :=
    match get_power_level_from_event_state sm e.user_id with
    | some v => if v ≠ 0 then v else 0
    | none => 0
  if user_level < send_level then
    .error (.authError 403 "You do not have permission to post that to the room")
  else .ok ()

/-- `Auth._check_redaction`: the raw Python 2 comparison
`user_level < redact_level` on two possibly-`None` values. -/
def check_redaction (sm : StateMap) (e : Event) : Except AuthFailure Unit :=
  let user_level := get_power_level_from_event_state sm e.user_id
  let redact_level := (get_ops_level_from_event_state sm).2.2
  if pyLtO user_level redact_level then
    .error (.authError 403 "You do not have permission to redact events")
  else .ok ()

/-- Modelled from the spec: `hs.parse_userid` lives outside the given
source; §4.4 only requires that every key of the proposed `users` map parse
as a valid user identifier (`@localpart:domain`). -/
def parse_userid_ok (s : String) : Bool :=
  match s.data with
  | [] => false
  | c :: rest => c == '@' && rest.contains ':'

/-- The `(old_value, new_value)` pairs of the five scalar thresholds that
`_check_power_levels` walks (`users_default`, `events_default`, `ban`,
`redact`, `kick`; `state_default` is absent from the source's list). -/
def scalarPairs (oldC newC : Content) : List (Option Int × Option Int) :=
  [(oldC.users_default, newC.users_default),
   (oldC.events_default, newC.events_default),
   (oldC.ban, newC.ban),
   (oldC.redact, newC.redact),
   (oldC.kick, newC.kick)]

/-- The `(old, new)` value pairs over `set(old.keys() + new.keys())`. -/
def unionPairs (oldD newD : Dict) : List (Option Int × Option Int) :=
  (dkeys oldD ++ dkeys newD).map (fun k => (dget oldD k, dget newD k))

/-- One iteration of the `_check_power_levels` loop: skip when both sides
are present and equal, otherwise raise iff `old > user or new > user` under
Python 2 `None` ordering. -/
def levelViolates (user_level : Option Int) (p : Option Int × Option Int) : Bool :=
  match p with
  | (some old_level, some new_level) =>
    if new_level = old_level then false
    else pyGtO (some old_level) user_level || pyGtO (some new_level) user_level
  | (old_level, new_level) => pyGtO old_level user_level || pyGtO new_level user_level

/-- `Auth._check_power_levels`.  The source reads
`current_state.content.get("users")` and both `events` maps without a
default, so a missing map is an uncaught `AttributeError` (`crash`). -/
def check_power_levels (sm : StateMap) (e : Event) : Except AuthFailure Unit :=
  let user_list := e.content.users.getD []
  if !(user_list.all (fun kv => parse_userid_ok kv.1)) then
    .error (.synapseError 400 "Not a valid user_id")
  else
    match e.state_key with
    | none => .error (.crash "AttributeError state_key")
    | some sk =>
      match sget sm (e.type, sk) with
      | none => .ok ()
      | some current_state =>
        let user_level := get_power_level_from_event_state sm e.user_id
        match current_state.content.users with
        | none => .error (.crash "AttributeError users")
        | some old_users =>
          match current_state.content.events, e.content.events with
          | some old_events, some new_events =>
            let pairs := scalarPairs current_state.content e.content
              ++ unionPairs old_users user_list
              ++ unionPairs old_events new_events
            if pairs.any (levelViolates user_level) then
              .error (.authError 403 "You do not have permission to add ops level greater than your own")
            else .ok ()
          | _, _ => .error (.crash "AttributeError events")

/-- The body of `Auth.check` before its `try/except` wrapper: the dispatch
of §4.1 steps 1-9. -/
def checkBody (e : Event) : Except AuthFailure Bool :=
  match e.room_id with
  | none => .error (.authError 500 "Unknown event")
  | some _ =>
    match e.old_state_events with
    | none => .ok true
    | some sm =>
      if e.outlier == some true then .ok true
      else if e.type == RoomCreateEventType then .ok true
      else
        match can_send_event sm e with
        | .error f => .error f
        | .ok _ =>
          if e.type == RoomMemberEventType then is_membership_change_allowed sm e
          else
            match (if e.type == RoomPowerLevelsEventType then check_power_levels sm e else .ok ()) with
            | .error f => .error f
            | .ok _ =>
              match (if e.type == RoomRedactionEventType then check_redaction sm e else .ok ()) with
              | .error f => .error f
              | .ok _ => .ok true

/-- `Auth.check(event, raises)`.  Modelled from the spec: the class
hierarchy of the errors module (whether the 400-class `SynapseError` is an
`AuthError`) is not part of the given source; per §7 the handler treats all
typed failures alike, re-raising in strict mode and swallowing into `False`
in lenient mode.  Crashes are caught by no handler. -/
def check (e : Event) (raises : Bool) : Except AuthFailure Bool :=
  match checkBody e with
  | .ok b => .ok b
  | .error f =>
    if isTypedFailure f then
      if raises then .error f else .ok false
    else .error f

/-! ### Specification-side definitions

These follow the words of the spec / claims, to be compared with the
definitions above that were translated from the source. -/

/-- Outcome classification used by the §4.3 membership table. -/
inductive Verdict where
  | allow
  | deny403
  | deny500
deriving DecidableEq

/-- «caller's effective level ≥ threshold», with the missing-level sentinel
never reaching any threshold. -/
def pyGeO (u : Option Int) (k : Int) : Bool :=
  match u with
  | some v => decide (k ≤ v)
  | none => false

/-- The §4.3 membership transition table, written from the claim C2 text:
invite requires caller-in-room and not target-in-room; join requires
caller = target and (public rule, or invite rule with caller-in-room), any
other rule denying join; leave requires caller-in-room and, for a kick,
level ≥ kick threshold; ban requires level ≥ ban threshold; anything else
is the 500 unknown-membership case. -/
def membershipSpecVerdict (caller_in_room target_in_room caller_is_target : Bool)
    (membership join_rule : String) (user_level : Option Int) (kickT banT : Int) : Verdict :=
  if membership = "invite" then
    if caller_in_room && !target_in_room then .allow else .deny403
  else if membership = "join" then
    if caller_is_target && (join_rule == "public" || (join_rule == "invite" && caller_in_room))
    then .allow else .deny403
  else if membership = "leave" then
    if caller_in_room && (caller_is_target || pyGeO user_level kickT) then .allow else .deny403
  else if membership = "ban" then
    if pyGeO user_level banT then .allow else .deny403
  else .deny500

/-- Claim C1's notion of a forbidden delta: the threshold differs between
old and new content, and a present side strictly exceeds the acting user's
effective level. -/
def exceedsSide (u : Int) : Option Int → Bool
  | some v => decide (u < v)
  | none => false

/-- «differs between old and new, and some present side exceeds the level». -/
def changedExceeds (u : Int) (p : Option Int × Option Int) : Bool :=
  !(p.1 == p.2) && (exceedsSide u p.1 || exceedsSide u p.2)

/-- The required send level exactly as claim C6 states it: `events[type]`
if that entry is set, else `state_default` (50) for state events or
`events_default` (0) for others, those defaults applying also when no
power-levels state exists at all. -/
def claimSendRequired (sm : StateMap) (e : Event) : Int :=
  match sget sm (RoomPowerLevelsEventType, "") with
  | some pe =>
    match dget (pe.content.events.getD []) e.type with
    | some v => v
    | none =>
      if e.state_key.isSome then pe.content.state_default.getD 50
      else pe.content.events_default.getD 0
  | none => if e.state_key.isSome then 50 else 0

/-- The required send level as amended: a zero-valued `events[type]` entry
falls back to the defaults, and with no power-levels state at all the
required level is `0` for every event. -/
def sendRequiredAmended (sm : StateMap) (e : Event) : Int :=
  match sget sm (RoomPowerLevelsEventType, "") with
  | none => 0
  | some pe =>
    let fallback : Int :=
      if e.state_key.isSome then pe.content.state_default.getD 50
      else pe.content.events_default.getD 0
    match dget (pe.content.events.getD []) e.type with
    | some v => if v ≠ 0 then v else fallback
    | none => fallback

/-- The acting user's level as the send gate consumes it: the resolver's
result with the missing-level sentinel (and a falsy zero) coerced to `0`. -/
def sendUserLevel (sm : StateMap) (uid : String) : Int :=
  match get_power_level_from_event_state sm uid with
  | some v => if v ≠ 0 then v else 0
  | none => 0

/-! ### Concrete fixtures used by witnesses and counterexamples -/

/-- Power-levels content of spec §8 scenario 1: `users` and `ban` set, no
`events` map. -/
def plContentA : Content := { users := some [("@alice:x", 100)], ban := some 50 }

/-- Room state holding only the scenario-1 power-levels event. -/
def smA : StateMap := [((RoomPowerLevelsEventType, ""), { content := plContentA })]

/-- A power-levels event resubmitting exactly the current content. -/
def evNoop : Event :=
  { room_id := some "!r", type := RoomPowerLevelsEventType, state_key := some "",
    user_id := "@alice:x", content := plContentA, old_state_events := some smA }

/-- Power-levels content giving Eve level 30, `events_default` 0. -/
def plContentB : Content :=
  { users := some [("@eve:x", 30)], events := some [], events_default := some 0 }

/-- Room state for spec §8 scenario 4. -/
def smB : StateMap := [((RoomPowerLevelsEventType, ""), { content := plContentB })]

/-- Eve (level 30) proposes raising `events_default` from 0 to 40. -/
def evRaise : Event :=
  { room_id := some "!r", type := RoomPowerLevelsEventType, state_key := some "",
    user_id := "@eve:x",
    content := { users := some [("@eve:x", 30)], events := some [], events_default := some 40 },
    old_state_events := some smB }

/-- Power-levels content giving Frank level 50, `events_default` 0. -/
def plContentC : Content :=
  { users := some [("@frank:x", 50)], events := some [], events_default := some 0 }

/-- Room state for spec §8 scenario 5. -/
def smC : StateMap := [((RoomPowerLevelsEventType, ""), { content := plContentC })]

/-- Frank (level 50) proposes raising `events_default` from 0 to 40. -/
def evFrankRaise : Event :=
  { room_id := some "!r", type := RoomPowerLevelsEventType, state_key := some "",
    user_id := "@frank:x",
    content := { users := some [("@frank:x", 50)], events := some [], events_default := some 40 },
    old_state_events := some smC }

/-- An event carrying neither a `room_id` nor a prior-state snapshot. -/
def evMissingRoomId : Event := { old_state_events := none }

/-- Carol (no `users` entry, default 0) proposes a ban in the scenario-1
room; the send gate already denies her. -/
def evCarolBan : Event :=
  { room_id := some "!r", type := RoomMemberEventType, state_key := some "@bob:x",
    user_id := "@carol:x", content := { membership := some "ban" },
    old_state_events := some smA }

/-- A state event in a room with no power-levels state at all. -/
def evStateNoPower : Event :=
  { room_id := some "!r", type := "m.room.name", state_key := some "",
    user_id := "@u:x", old_state_events := some [] }

/-- A redaction in a room with no power-levels state at all. -/
def evRedactNoPower : Event :=
  { room_id := some "!r", type := RoomRedactionEventType,
    user_id := "@u:x", old_state_events := some [] }

/-- Power levels listing an explicit zero entry next to a nonzero default. -/
def plContentD : Content :=
  { users := some [("@zero:x", 0), ("@bob:x", 25)], users_default := some 7 }

/-- Room state for the effective-level resolver witness. -/
def smD : StateMap := [((RoomPowerLevelsEventType, ""), { content := plContentD })]

/-- Power levels configuring the ban and kick thresholds as `0`. -/
def plContentE : Content :=
  { users := some [("@low:x", 10), ("@mod:x", 10)], ban := some 0, kick := some 0 }

/-- Room with zero ban/kick thresholds and `@mod:x` joined. -/
def smE : StateMap :=
  [((RoomPowerLevelsEventType, ""), { content := plContentE }),
   ((RoomMemberEventType, "@mod:x"), { membership := some "join" })]

/-- `@low:x` (level 10) requests a ban in the zero-threshold room. -/
def evLowBan : Event :=
  { room_id := some "!r", type := RoomMemberEventType, state_key := some "@t:x",
    user_id := "@low:x", content := { membership := some "ban" },
    old_state_events := some smE }

/-- `@mod:x` (level 10, joined) requests kicking `@t:x` in the
zero-threshold room. -/
def evModKick : Event :=
  { room_id := some "!r", type := RoomMemberEventType, state_key := some "@t:x",
    user_id := "@mod:x", content := { membership := some "leave" },
    old_state_events := some smE }

/-- A room whose only state is a public join rule. -/
def smPublic : StateMap :=
  [((RoomJoinRulesEventType, ""), { content := { join_rule := some "public" } })]

/-- Dave joins himself in the public room. -/
def evDavePublicJoin : Event :=
  { room_id := some "!r", type := RoomMemberEventType, state_key := some "@dave:x",
    user_id := "@dave:x", content := { membership := some "join" },
    old_state_events := some smPublic }

/-- Dave, not invited, tries a self-join under the default invite rule. -/
def evDaveInviteJoin : Event :=
  { room_id := some "!r", type := RoomMemberEventType, state_key := some "@dave:x",
    user_id := "@dave:x", content := { membership := some "join" },
    old_state_events := some [] }

/-- A join naming a different target than the sender. -/
def evForceJoin : Event :=
  { room_id := some "!r", type := RoomMemberEventType, state_key := some "@victim:x",
    user_id := "@dave:x", content := { membership := some "join" },
    old_state_events := some smPublic }

/-! ### Helper lemmas -/

/-- When a power-levels state exists, the effective-level resolver always
produces an integer (never the sentinel). -/
lemma get_power_level_some (sm : StateMap) (uid : String) (pe : StateEvent)
    (hp : sget sm (RoomPowerLevelsEventType, "") = some pe) :
    ∃ v, get_power_level_from_event_state sm uid = some v := by
  simp only [get_power_level_from_event_state, hp]
  cases hd : dget (pe.content.users.getD []) uid with
  | none => exact ⟨_, rfl⟩
  | some v =>
    by_cases h : v = 0
    · exact ⟨pe.content.users_default.getD 0, by simp [h]⟩
    · exact ⟨v, by simp [h]⟩

/-- The integer truthiness coercion `if v: int(v) else: 0` is the
identity on integers. -/
lemma truthyInt (v : Int) : (if v ≠ 0 then v else (0 : Int)) = v := by
  by_cases h : v = 0 <;> simp [h]

/-! ### Theorems about the claims -/

/-- Claim C3 counterexample: an event with no `room_id` attribute and an
absent prior-state snapshot is not allowed by `check` — lenient mode
returns `False` and strict mode raises the structural 500 — although the
claim says prior-state-absent events are allowed unconditionally. -/
theorem claim_c3_cex :
    evMissingRoomId.old_state_events = none ∧
    check evMissingRoomId false = .ok false ∧
    check evMissingRoomId true = .error (.authError 500 "Unknown event") :=
  ⟨rfl, rfl, rfl⟩

/-- Claim C3 (amended): for every event that does carry a `room_id`, an
absent prior-state snapshot means `check` returns `True`, and an event
flagged outlier is likewise always allowed, in both modes, regardless of
every other field. -/
theorem claim_c3_trust_fallthrough (e : Event) (r : Bool) (h : e.room_id.isSome = true) :
    (e.old_state_events = none → check e r = .ok true) ∧
    (e.outlier = some true → check e r = .ok true) := by
  obtain ⟨rid, hrid⟩ := Option.isSome_iff_exists.mp h
  constructor
  · intro hold
    simp [check, checkBody, hrid, hold]
  · intro hout
    cases hos : e.old_state_events with
    | none => simp [check, checkBody, hrid, hos]
    | some sm => simp [check, checkBody, hrid, hos, hout]

/-- Witness for the amended claim C3 at concrete events. -/
theorem claim_c3_trust_fallthrough_witness :
    check { room_id := some "!r" } false = .ok true ∧
    check { room_id := some "!r", outlier := some true, old_state_events := some [] } true = .ok true :=
  ⟨(claim_c3_trust_fallthrough { room_id := some "!r" } false rfl).1 rfl,
   (claim_c3_trust_fallthrough
     { room_id := some "!r", outlier := some true, old_state_events := some [] } true rfl).2 rfl⟩

/-- Claim C4: resubmitting the room's exact current power-levels content
(spec scenario 1, which has no `events` map) does not pass the validator:
the source reads `current_state.content.get("events")` without a default
and crashes on `None.keys()` instead of allowing the no-op. -/
theorem claim_c4_noop_crash :
    evNoop.content = plContentA ∧
    sget smA (RoomPowerLevelsEventType, "") = some { content := plContentA } ∧
    check_power_levels smA evNoop = .error (.crash "AttributeError events") :=
  ⟨rfl, rfl, rfl⟩

/-- Claim C5: strict and lenient mode share the verdict of the one
underlying check body; strict mode surfaces a typed denial as the raised
failure while lenient mode swallows it into `False`. -/
theorem claim_c5_mode_equivalence (e : Event) :
    (check e true = .ok true ↔ check e false = .ok true) ∧
    (∀ f, isTypedFailure f = true → checkBody e = .error f →
      check e true = .error f ∧ check e false = .ok false) := by
  cases hb : checkBody e with
  | ok b =>
    refine ⟨by simp [check, hb], ?_⟩
    intro f _ hf
    exact absurd hf (by simp)
  | error f =>
    refine ⟨?_, ?_⟩
    · cases ht : isTypedFailure f <;> simp [check, hb, ht]
    · intro g hg hge
      injection hge with hfg
      subst hfg
      simp [check, hb, hg]

/-- Witness for claim C5: Carol's under-levelled ban is a 403; strict mode
raises it and lenient mode returns `False`. -/
theorem claim_c5_mode_equivalence_witness :
    check evCarolBan true = .error (.authError 403 "You do not have permission to post that to the room") ∧
    check evCarolBan false = .ok false :=
  (claim_c5_mode_equivalence evCarolBan).2 _ rfl rfl

/-- Claim C7 counterexample: a redaction in a room with no power-levels
state is allowed by the redaction gate, although the claim's defaults
(threshold 50, sentinel level 0) would deny it:  the source compares
`None < None`, which is false in Python 2. -/
theorem claim_c7_cex :
    sget ([] : StateMap) (RoomPowerLevelsEventType, "") = none ∧
    get_power_level_from_event_state [] "@u:x" = none ∧
    check_redaction [] evRedactNoPower = .ok () :=
  ⟨rfl, rfl, rfl⟩

/-- Claim C7 (amended): when a power-levels state exists the redaction gate
denies with 403 exactly when the acting user's effective level is below the
`redact` threshold (defaulting to 50 when the field is absent); when no
power-levels state exists at all, the gate allows. -/
theorem claim_c7_redaction_gate (sm : StateMap) (e : Event) :
    check_redaction sm e =
      (match sget sm (RoomPowerLevelsEventType, "") with
       | none => Except.ok ()
       | some pe =>
         if (get_power_level_from_event_state sm e.user_id).getD 0 < pe.content.redact.getD 50 then
           Except.error (AuthFailure.authError 403 "You do not have permission to redact events")
         else Except.ok ()) := by
  cases hp : sget sm (RoomPowerLevelsEventType, "") with
  | none =>
    simp [check_redaction, get_power_level_from_event_state,
      get_ops_level_from_event_state, hp, pyLtO]
  | some pe =>
    obtain ⟨v, hv⟩ := get_power_level_some sm e.user_id pe hp
    simp [check_redaction, get_ops_level_from_event_state, hp, hv, pyLtO]

/-- Claim C8: the effective-level resolver returns `users[user_id]` when
present and non-zero, `users_default` (default 0) when the entry is absent
or explicitly zero, and the `None` sentinel when no power-levels state
exists at all. -/
theorem claim_c8_effective_level (sm : StateMap) (uid : String) :
    (sget sm (RoomPowerLevelsEventType, "") = none →
      get_power_level_from_event_state sm uid = none) ∧
    (∀ pe v, sget sm (RoomPowerLevelsEventType, "") = some pe →
      dget (pe.content.users.getD []) uid = some v → v ≠ 0 →
      get_power_level_from_event_state sm uid = some v) ∧
    (∀ pe, sget sm (RoomPowerLevelsEventType, "") = some pe →
      dget (pe.content.users.getD []) uid = some 0 →
      get_power_level_from_event_state sm uid = some (pe.content.users_default.getD 0)) ∧
    (∀ pe, sget sm (RoomPowerLevelsEventType, "") = some pe →
      dget (pe.content.users.getD []) uid = none →
      get_power_level_from_event_state sm uid = some (pe.content.users_default.getD 0)) := by
  refine ⟨?_, ?_, ?_, ?_⟩
  · intro hp
    simp [get_power_level_from_event_state, hp]
  · intro pe v hp hd hv
    simp [get_power_level_from_event_state, hp, hd, hv]
  · intro pe hp hd
    simp [get_power_level_from_event_state, hp, hd]
  · intro pe hp hd
    simp [get_power_level_from_event_state, hp, hd]

/-- Witness for claim C8: a positive entry is returned as-is, an explicit
zero entry falls back to `users_default` 7, and an absent power-levels
state yields the sentinel. -/
theorem claim_c8_effective_level_witness :
    get_power_level_from_event_state smD "@bob:x" = some 25 ∧
    get_power_level_from_event_state smD "@zero:x" = some 7 ∧
    get_power_level_from_event_state [] "@bob:x" = none :=
  ⟨(claim_c8_effective_level smD "@bob:x").2.1 _ 25 rfl rfl (by decide),
   (claim_c8_effective_level smD "@zero:x").2.2.1 _ rfl rfl,
   (claim_c8_effective_level [] "@bob:x").1 rfl⟩

/-- Claim C9: a join event naming a target other than its sender is denied
with 403 by the membership gate, before any level or join-rule is
consulted. -/
theorem claim_c9_self_join_only (sm : StateMap) (e : Event) (t : String)
    (hsk : e.state_key = some t) (hm : e.content.membership = some MembershipJoin)
    (hne : e.user_id ≠ t) :
    is_membership_change_allowed sm e =
      .error (.authError 403 "Cannot force another user to join.") := by
  simp only [is_membership_change_allowed, hsk, hm, membershipCore]
  simp [hne]
  intro h
  exact absurd h (by decide)

/-- Witness for claim C9: Dave cannot join `@victim:x` even in a public
room. -/
theorem claim_c9_self_join_only_witness :
    is_membership_change_allowed smPublic evForceJoin =
      .error (.authError 403 "Cannot force another user to join.") :=
  claim_c9_self_join_only smPublic evForceJoin "@victim:x" rfl rfl (by decide)

/-- Claim C6 counterexample: for a state event in a room with no
power-levels state, the claim's required level is `state_default`'s
default 50 while the user's effective level is 0, yet the send gate
allows: the source falls through to `send_level = 0` when no power-levels
event exists, for state and message events alike. -/
theorem claim_c6_cex :
    sendUserLevel [] "@u:x" < claimSendRequired [] evStateNoPower ∧
    can_send_event [] evStateNoPower = .ok () :=
  ⟨by decide, rfl⟩

/-- Claim C6 (amended): the send gate denies with 403 exactly when the
acting user's effective level (sentinel and zero coerced to 0) is strictly
below the required level, where the required level is `events[event_type]`
when set and non-zero, else `state_default` (default 50) for events with a
`state_key` or `events_default` (default 0) otherwise — and is `0` for
every event when no power-levels state exists at all. -/
theorem claim_c6_send_gate (sm : StateMap) (e : Event) :
    can_send_event sm e =
      (if sendUserLevel sm e.user_id < sendRequiredAmended sm e then
        Except.error (AuthFailure.authError 403 "You do not have permission to post that to the room")
      else Except.ok ()) := by
  unfold can_send_event sendUserLevel sendRequiredAmended
  cases hp : sget sm (RoomPowerLevelsEventType, "") with
  | none => rfl
  | some pe =>
    cases hd : dget (pe.content.events.getD []) e.type with
    | none =>
      by_cases hf : (if e.state_key.isSome then pe.content.state_default.getD 50
          else pe.content.events_default.getD 0) = 0 <;>
        simp [hd, hf]
    | some v =>
      by_cases hv : v = 0
      · by_cases hf : (if e.state_key.isSome then pe.content.state_default.getD 50
            else pe.content.events_default.getD 0) = 0 <;>
          simp [hd, hv, hf]
      · simp [hd, hv]

/-- Claim C10: a ban (or kick) threshold explicitly configured as `0` is
falsy and therefore replaced by the default `50`, exactly as if it were
absent, so an acting user below level 50 is denied. -/
theorem claim_c10_zero_threshold (sm : StateMap) (e : Event) (t : String) (pe : StateEvent)
    (hsk : e.state_key = some t)
    (hp : sget sm (RoomPowerLevelsEventType, "") = some pe)
    (hlow : pyLtO (get_power_level_from_event_state sm e.user_id) (some 50) = true) :
    opsDefault (some 0) = opsDefault none ∧
    (e.content.membership = some MembershipBan → pe.content.ban = some 0 →
      is_membership_change_allowed sm e =
        .error (.authError 403 "You do not have permission to ban")) ∧
    (e.content.membership = some MembershipLeave → pe.content.kick = some 0 →
      inRoom (sget sm (RoomMemberEventType, e.user_id)) = true → t ≠ e.user_id →
      is_membership_change_allowed sm e =
        .error (.authError 403 "You cannot kick that user.")) := by
  refine ⟨rfl, ?_, ?_⟩
  · intro hm hban
    simp only [is_membership_change_allowed, hsk, hm, membershipCore,
      get_ops_level_from_event_state, hp, hban]
    have h1 : ¬(MembershipBan = MembershipInvite) := by decide
    have h2 : ¬(MembershipBan = MembershipJoin) := by decide
    have h3 : ¬(MembershipBan = MembershipLeave) := by decide
    simp [h1, h2, h3, opsDefault, hlow]
  · intro hm hkick hin hne
    simp only [is_membership_change_allowed, hsk, hm, membershipCore,
      get_ops_level_from_event_state, hp, hkick]
    have h1 : ¬(MembershipLeave = MembershipInvite) := by decide
    have h2 : ¬(MembershipLeave = MembershipJoin) := by decide
    simp [h1, h2, hin, hne, opsDefault, hlow]

/-- Witness for claim C10: in the room configuring `ban: 0, kick: 0`,
level-10 `@low:x` cannot ban and level-10 joined `@mod:x` cannot kick. -/
theorem claim_c10_zero_threshold_witness :
    is_membership_change_allowed smE evLowBan =
      .error (.authError 403 "You do not have permission to ban") ∧
    is_membership_change_allowed smE evModKick =
      .error (.authError 403 "You cannot kick that user.") :=
  ⟨(claim_c10_zero_threshold smE evLowBan "@t:x" { content := plContentE }
      rfl rfl rfl).2.1 rfl rfl,
   (claim_c10_zero_threshold smE evModKick "@t:x" { content := plContentE }
      rfl rfl rfl).2.2 rfl rfl rfl (by decide)⟩

/-- The full collection of `(old, new)` threshold pairs that claim C1
enumerates: the five scalars and every entry in the union of the old and
new `users` maps and of the old and new `events` maps. -/
def checkedPairs (oldC newC : Content) : List (Option Int × Option Int) :=
  scalarPairs oldC newC
    ++ unionPairs (oldC.users.getD []) (newC.users.getD [])
    ++ unionPairs (oldC.events.getD []) (newC.events.getD [])

/-- For an integer acting level, the source's loop test (skip when both
sides are present and equal, else raise when a side is greater under
Python 2 `None` ordering) coincides with claim C1's predicate (the pair
differs and a present side strictly exceeds the level). -/
lemma levelViolates_eq_changedExceeds (u : Int) (p : Option Int × Option Int) :
    levelViolates (some u) p = changedExceeds u p := by
  rcases p with ⟨o, n⟩
  cases o with
  | none =>
    cases n with
    | none => rfl
    | some nv => simp [levelViolates, changedExceeds, exceedsSide, pyGtO, pyLtO]
  | some ov =>
    cases n with
    | none => simp [levelViolates, changedExceeds, exceedsSide, pyGtO, pyLtO]
    | some nv =>
      by_cases h : nv = ov
      · subst h
        simp [levelViolates, changedExceeds, exceedsSide, pyGtO, pyLtO]
      · have h2 : ¬ov = nv := fun hh => h hh.symm
        simp [levelViolates, changedExceeds, exceedsSide, pyGtO, pyLtO, h, h2]

/-- Claim C1: for a power-levels event evaluated against an existing prior
power-levels state with syntactically valid content (valid user ids, and
both contents carrying their `users`/`events` maps), the validator denies
with 403 exactly in the monotonic-authority sense: it denies when some
changed threshold has a present old or new value above the acting user's
effective level, and allows when every changed value is bounded by it. -/
theorem claim_c1_monotonic_bound (sm : StateMap) (e : Event) (current : StateEvent)
    (old_users old_events new_events : Dict) (uv : Int)
    (hty : e.type = RoomPowerLevelsEventType) (hsk : e.state_key = some "")
    (hcur : sget sm (RoomPowerLevelsEventType, "") = some current)
    (hou : current.content.users = some old_users)
    (hoe : current.content.events = some old_events)
    (hne : e.content.events = some new_events)
    (hvalid : (e.content.users.getD []).all (fun kv => parse_userid_ok kv.1) = true)
    (hu : get_power_level_from_event_state sm e.user_id = some uv) :
    ((∃ p ∈ checkedPairs current.content e.content, changedExceeds uv p = true) →
      check_power_levels sm e =
        .error (.authError 403 "You do not have permission to add ops level greater than your own")) ∧
    ((∀ p ∈ checkedPairs current.content e.content, changedExceeds uv p = false) →
      check_power_levels sm e = .ok ()) := by
  have hpairs : scalarPairs current.content e.content
      ++ unionPairs old_users (e.content.users.getD [])
      ++ unionPairs old_events new_events
      = checkedPairs current.content e.content := by
    simp [checkedPairs, hou, hoe, hne]
  simp only [check_power_levels, hvalid, Bool.not_true, Bool.false_eq_true, if_false,
    hsk, hty, hcur, hou, hoe, hne, hu, hpairs]
  constructor
  · intro hex
    have hany : (checkedPairs current.content e.content).any (levelViolates (some uv)) = true := by
      rw [List.any_eq_true]
      obtain ⟨p, hmem, hp⟩ := hex
      exact ⟨p, hmem, by rw [levelViolates_eq_changedExceeds]; exact hp⟩
    simp [hany]
  · intro hall
    have hany : (checkedPairs current.content e.content).any (levelViolates (some uv)) = false := by
      rw [List.any_eq_false]
      intro p hmem
      rw [levelViolates_eq_changedExceeds]
      simp [hall p hmem]
    simp [hany]

/-- Witness for claim C1: Eve (level 30) raising `events_default` to 40 is
denied, and Frank (level 50) making the same change is allowed. -/
theorem claim_c1_monotonic_bound_witness :
    check_power_levels smB evRaise =
      .error (.authError 403 "You do not have permission to add ops level greater than your own") ∧
    check_power_levels smC evFrankRaise = .ok () :=
  ⟨(claim_c1_monotonic_bound smB evRaise { content := plContentB } [("@eve:x", 30)] [] []
      30 rfl rfl rfl rfl rfl rfl rfl rfl).1 (by decide),
   (claim_c1_monotonic_bound smC evFrankRaise { content := plContentC } [("@frank:x", 50)] [] []
      50 rfl rfl rfl rfl rfl rfl rfl rfl).2 (by decide)⟩

/-- `pyGeO` is the boolean negation of the source's Python 2 `<` against a
present threshold. -/
lemma pyGeO_eq_not_lt (u : Option Int) (k : Int) : pyGeO u k = !pyLtO u (some k) := by
  cases u with
  | none => rfl
  | some v =>
    by_cases h : k ≤ v
    · have h2 : ¬v < k := Int.not_lt.mpr h
      simp [pyGeO, pyLtO, h, h2]
    · have h2 : v < k := Int.not_le.mp h
      simp [pyGeO, pyLtO, h, h2]

/-- The resolved membership branch agrees with the §4.3 table on all
inputs: the table verdict is `allow`/`deny403`/`deny500` exactly when the
source branch returns `True` / raises some 403 / raises some 500. -/
lemma membershipCore_table (cir tir : Bool) (uid t m jr : String) (u : Option Int)
    (banO kickO : Option Int) :
    ((membershipSpecVerdict cir tir (uid == t) m jr u (opsDefault kickO) (opsDefault banO)
        = .allow) ↔
      membershipCore cir tir uid t m jr u banO kickO = .ok true) ∧
    ((membershipSpecVerdict cir tir (uid == t) m jr u (opsDefault kickO) (opsDefault banO)
        = .deny403) ↔
      ∃ s, membershipCore cir tir uid t m jr u banO kickO = .error (.authError 403 s)) ∧
    ((membershipSpecVerdict cir tir (uid == t) m jr u (opsDefault kickO) (opsDefault banO)
        = .deny500) ↔
      ∃ s, membershipCore cir tir uid t m jr u banO kickO = .error (.authError 500 s)) := by
  by_cases h1 : m = "invite"
  · subst h1
    cases cir <;> cases tir <;>
      simp [membershipSpecVerdict, membershipCore, MembershipInvite]
  · by_cases h2 : m = "join"
    · subst h2
      by_cases hu : uid = t
      · subst hu
        by_cases hj1 : jr = "public"
        · subst hj1
          simp [membershipSpecVerdict, membershipCore, MembershipInvite, MembershipJoin,
            JoinRulePublic]
        · by_cases hj2 : jr = "invite"
          · subst hj2
            cases cir <;>
              simp [membershipSpecVerdict, membershipCore, MembershipInvite, MembershipJoin,
                JoinRulePublic, JoinRuleInvite]
          · simp [membershipSpecVerdict, membershipCore, MembershipInvite, MembershipJoin,
              JoinRulePublic, JoinRuleInvite, hj1, hj2]
      · have huid : (uid == t) = false := by
          simp only [beq_eq_false_iff_ne, ne_eq]
          exact hu
        simp [membershipSpecVerdict, membershipCore, MembershipInvite, MembershipJoin,
          huid, hu]
    · by_cases h3 : m = "leave"
      · subst h3
        cases cir with
        | false =>
          simp [membershipSpecVerdict, membershipCore, MembershipInvite, MembershipJoin,
            MembershipLeave]
        | true =>
          by_cases ht : t = uid
          · subst ht
            simp [membershipSpecVerdict, membershipCore, MembershipInvite, MembershipJoin,
              MembershipLeave]
          · have huid : (uid == t) = false := by
              simp only [beq_eq_false_iff_ne, ne_eq]
              exact fun hh => ht hh.symm
            cases hlt : pyLtO u (some (opsDefault kickO)) <;>
              simp [membershipSpecVerdict, membershipCore, MembershipInvite, MembershipJoin,
                MembershipLeave, huid, ht, pyGeO_eq_not_lt, hlt]
      · by_cases h4 : m = "ban"
        · subst h4
          cases hlt : pyLtO u (some (opsDefault banO)) <;>
            simp [membershipSpecVerdict, membershipCore, MembershipInvite, MembershipJoin,
              MembershipLeave, MembershipBan, pyGeO_eq_not_lt, hlt]
        · simp [membershipSpecVerdict, membershipCore, MembershipInvite, MembershipJoin,
            MembershipLeave, MembershipBan, h1, h2, h3, h4]

/-- Claim C2: with the `state_key` and `content["membership"]` present, the
membership gate's verdict is fully determined by the derived tuple (caller
in room, target in room, caller = target, requested membership, join rule)
together with the caller's level and the effective kick/ban thresholds,
exactly per the §4.3 table, the only 500 being the unknown-membership
fallthrough. -/
theorem claim_c2_membership_table (sm : StateMap) (e : Event) (t m : String)
    (hsk : e.state_key = some t) (hm : e.content.membership = some m) :
    ((membershipSpecVerdict (inRoom (sget sm (RoomMemberEventType, e.user_id)))
        (inRoom (sget sm (RoomMemberEventType, t))) (e.user_id == t) m (joinRuleOf sm)
        (get_power_level_from_event_state sm e.user_id)
        (opsDefault (get_ops_level_from_event_state sm).2.1)
        (opsDefault (get_ops_level_from_event_state sm).1) = .allow) ↔
      is_membership_change_allowed sm e = .ok true) ∧
    ((membershipSpecVerdict (inRoom (sget sm (RoomMemberEventType, e.user_id)))
        (inRoom (sget sm (RoomMemberEventType, t))) (e.user_id == t) m (joinRuleOf sm)
        (get_power_level_from_event_state sm e.user_id)
        (opsDefault (get_ops_level_from_event_state sm).2.1)
        (opsDefault (get_ops_level_from_event_state sm).1) = .deny403) ↔
      ∃ s, is_membership_change_allowed sm e = .error (.authError 403 s)) ∧
    ((membershipSpecVerdict (inRoom (sget sm (RoomMemberEventType, e.user_id)))
        (inRoom (sget sm (RoomMemberEventType, t))) (e.user_id == t) m (joinRuleOf sm)
        (get_power_level_from_event_state sm e.user_id)
        (opsDefault (get_ops_level_from_event_state sm).2.1)
        (opsDefault (get_ops_level_from_event_state sm).1) = .deny500) ↔
      ∃ s, is_membership_change_allowed sm e = .error (.authError 500 s)) := by
  simp only [is_membership_change_allowed, hsk, hm]
  exact membershipCore_table (inRoom (sget sm (RoomMemberEventType, e.user_id)))
    (inRoom (sget sm (RoomMemberEventType, t))) e.user_id t m (joinRuleOf sm)
    (get_power_level_from_event_state sm e.user_id)
    (get_ops_level_from_event_state sm).1 (get_ops_level_from_event_state sm).2.1

/-- Witness for claim C2: Dave's self-join in a public room is allowed
(spec scenario 2), and his uninvited self-join under the default invite
rule is a 403 (spec scenario 3). -/
theorem claim_c2_membership_table_witness :
    is_membership_change_allowed smPublic evDavePublicJoin = .ok true ∧
    (∃ s, is_membership_change_allowed [] evDaveInviteJoin = .error (.authError 403 s)) :=
  ⟨(claim_c2_membership_table smPublic evDavePublicJoin "@dave:x" "join" rfl rfl).1.mp
      (by decide),
   (claim_c2_membership_table [] evDaveInviteJoin "@dave:x" "join" rfl rfl).2.1.mp
      (by decide)⟩

end Synapse
